import Mathlib

set_option linter.unusedVariables false

/-!
Shallow embedding of the NFT minting core of the repository
(mint reducer, provider detector, provider configs, price discovery,
metadata resolver, error classifier) together with theorems checking the
natural-language specification against the code.
-/

/-- The closed provider enum from `src/lib/types` (`NFTProvider`). -/
inductive NFTProvider
  | manifold | opensea | zora | generic | nfts2me | thirdweb
deriving DecidableEq, Repr

/-- `MintStep` from `src/lib/mint-reducer.ts`. -/
inductive MintStep
  | initial | detecting | sheet | connecting | approve | approving
  | minting | waiting | success | error | validationError
deriving DecidableEq, Repr

/-- `TransactionType` from `src/lib/mint-reducer.ts` (`null` is modelled as
`Option.none` at use sites). -/
inductive TransactionType
  | approval | mint
deriving DecidableEq, Repr

/-- The `claim` record stored on `NFTContractInfo` (`src/lib/types`);
bigint cost is modelled as `Nat`. -/
structure ClaimInfo where
  cost : Nat
  merkleRoot : String
  erc20 : String
  startDate : Nat
  endDate : Nat
  walletMax : Nat
deriving DecidableEq, Repr

/-- The `claimCondition` record stored on `NFTContractInfo` (`src/lib/types`). -/
structure ClaimConditionInfo where
  id : Nat
  pricePerToken : Nat
  currency : String
  maxClaimableSupply : Nat
  merkleRoot : String
  startTimestamp : Nat
  quantityLimitPerWallet : Nat
deriving DecidableEq, Repr

/-- `NFTContractInfo` from `src/lib/types`; optional fields become `Option`. -/
structure NFTContractInfo where
  provider : NFTProvider
  isERC1155 : Bool
  isERC721 : Bool
  extensionAddress : Option String := none
  hasManifoldExtension : Option Bool := none
  claim : Option ClaimInfo := none
  claimCondition : Option ClaimConditionInfo := none
deriving DecidableEq, Repr

/-- The `erc20Details` record nested in `MintState.priceData`
(`src/lib/mint-reducer.ts`). -/
structure ERC20Details where
  address : String
  symbol : String
  decimals : Nat
  allowance : Option Nat := none
  needsApproval : Option Bool := none
deriving DecidableEq, Repr

/-- `MintState.priceData` from `src/lib/mint-reducer.ts`. -/
structure PriceData where
  mintPrice : Option Nat := none
  totalCost : Nat
  erc20Details : Option ERC20Details := none
deriving DecidableEq, Repr

/-- `MintState` from `src/lib/mint-reducer.ts`. -/
structure MintState where
  step : MintStep
  contractInfo : Option NFTContractInfo
  priceData : PriceData
  error : Option String := none
  txHash : Option String := none
  txType : Option TransactionType
  isLoading : Bool
  validationErrors : List String
deriving DecidableEq, Repr

/-- `initialState` from `src/lib/mint-reducer.ts`. -/
def initialState : MintState :=
  { step := .initial
    contractInfo := none
    priceData := { totalCost := 0 }
    error := none
    txHash := none
    txType := none
    isLoading := false
    validationErrors := [] }

/-- `MintAction` from `src/lib/mint-reducer.ts`. -/
inductive MintAction
  | DETECT_START
  | DETECT_SUCCESS (contractInfo : NFTContractInfo) (priceData : PriceData)
  | DETECT_ERROR (payload : String)
  | VALIDATION_ERROR (payload : List String)
  | APPROVE_REQUIRED
  | APPROVE_START
  | APPROVE_TX_SUBMITTED (payload : String)
  | APPROVE_SUCCESS
  | CONNECT_START
  | CONNECT_SUCCESS
  | MINT_START
  | MINT_TX_SUBMITTED (payload : String)
  | TX_SUCCESS (payload : String)
  | TX_ERROR (payload : String)
  | RESET
  | UPDATE_ALLOWANCE (payload : Nat)
deriving DecidableEq, Repr

/-- The `needsApproval` expression computed in the `DETECT_SUCCESS` branch of
`mintReducer`: `erc20Details && claim && (allowance !== undefined) &&
(allowance < claim.cost)`.  The JS value is `undefined` when `erc20Details`
or `claim` is missing, and a boolean otherwise; `Option Bool` captures that. -/
def detectNeedsApproval (contractInfo : NFTContractInfo) (priceData : PriceData) :
    Option Bool :=
  match priceData.erc20Details with
  | none => none
  | some d =>
    match contractInfo.claim with
    | none => none
    | some cl =>
      match d.allowance with
      | none => some false
      | some a => some (decide (a < cl.cost))

/-- `mintReducer` from `src/lib/mint-reducer.ts`, translated case by case. -/
def mintReducer (state : MintState) (action : MintAction) : MintState :=
  match action with
  | .DETECT_START =>
    { state with step := .detecting, isLoading := true, error := none }
  | .DETECT_SUCCESS contractInfo priceData =>
    let needsApproval := detectNeedsApproval contractInfo priceData
    { state with
      step := if needsApproval = some true then .approve else .sheet
      contractInfo := some contractInfo
      priceData :=
        { priceData with
          erc20Details := priceData.erc20Details.map
            (fun d => { d with needsApproval := needsApproval }) }
      isLoading := false }
  | .DETECT_ERROR payload =>
    { state with step := .error, error := some payload, isLoading := false }
  | .VALIDATION_ERROR payload =>
    { state with
      step := .validationError
      validationErrors := payload
      isLoading := false }
  | .APPROVE_REQUIRED =>
    { state with step := .approve }
  | .APPROVE_START =>
    { state with
      step := .approving
      isLoading := true
      txType := some .approval }
  | .APPROVE_TX_SUBMITTED payload =>
    { state with
      step := .waiting
      txHash := some payload
      txType := some .approval }
  | .APPROVE_SUCCESS =>
    { state with
      step := .sheet
      isLoading := false
      txType := none
      txHash := none
      priceData :=
        { state.priceData with
          erc20Details := state.priceData.erc20Details.map
            (fun d =>
              { d with
                needsApproval := some false
                allowance := some (match state.contractInfo with
                  | some ci => match ci.claim with
                    | some cl => cl.cost
                    | none => 0
                  | none => 0) }) } }
  | .CONNECT_START =>
    { state with step := .connecting }
  | .CONNECT_SUCCESS =>
    { state with step := .sheet }
  | .MINT_START =>
    { state with step := .minting, isLoading := true, txType := some .mint }
  | .MINT_TX_SUBMITTED payload =>
    { state with
      step := .waiting
      txHash := some payload
      txType := some .mint }
  | .TX_SUCCESS payload =>
    if state.txType = some .mint then
      { state with
        step := .success
        txHash := some payload
        isLoading := false
        txType := none }
    else
      state
  | .TX_ERROR payload =>
    { state with
      step := .error
      error := some payload
      isLoading := false
      txType := none }
  | .UPDATE_ALLOWANCE payload =>
    match state.priceData.erc20Details with
    | none => state
    | some d =>
      let updatedNeedsApproval :=
        match state.contractInfo with
        | some ci =>
          match ci.claim with
          | some cl => decide (payload < cl.cost)
          | none => false
        | none => false
      { state with
        priceData :=
          { state.priceData with
            erc20Details := some
              { d with
                allowance := some payload
                needsApproval := some updatedNeedsApproval } } }
  | .RESET => initialState

/-- The condition under which the `DETECT_SUCCESS` branch selects the
`approve` step, unfolded to an existential over the payload contents. -/
theorem detectNeedsApproval_eq_some_true_iff (ci : NFTContractInfo)
    (pd : PriceData) :
    detectNeedsApproval ci pd = some true ↔
      ∃ d a cl, pd.erc20Details = some d ∧ d.allowance = some a ∧
        ci.claim = some cl ∧ a < cl.cost := by
  unfold detectNeedsApproval
  cases hd : pd.erc20Details with
  | none => simp [hd]
  | some d =>
    cases hc : ci.claim with
    | none => simp [hd, hc]
    | some cl =>
      cases ha : d.allowance with
      | none => simp [hd, hc, ha]
      | some a => simp [hd, hc, ha]

/-- C1: a `TX_SUCCESS` action dispatched while `txType` is `"approval"` or
`null` leaves the state unchanged; only a `TX_SUCCESS` dispatched while
`txType` is `"mint"` moves `step` to `success`, records the payload hash in
`txHash`, clears `isLoading`, and clears `txType`. -/
theorem mintReducer_tx_success_only_for_mint (s : MintState) (h : String) :
    ((s.txType = none ∨ s.txType = some TransactionType.approval) →
      mintReducer s (.TX_SUCCESS h) = s) ∧
    (s.txType = some TransactionType.mint →
      mintReducer s (.TX_SUCCESS h) =
        { s with step := .success, txHash := some h, isLoading := false, txType := none }) := by
  constructor
  · intro hcase
    rcases hcase with h1 | h1 <;> simp [mintReducer, h1]
  · intro h1
    simp [mintReducer, h1]

/-- Witness for C1: concrete states with `txType = approval` and
`txType = mint`, evaluated through the theorem. -/
theorem mintReducer_tx_success_only_for_mint_witness :
    mintReducer { initialState with txType := some TransactionType.approval }
        (.TX_SUCCESS "0xabc") =
      { initialState with txType := some TransactionType.approval } ∧
    (mintReducer { initialState with txType := some TransactionType.mint }
        (.TX_SUCCESS "0xabc")).step = MintStep.success := by
  refine ⟨(mintReducer_tx_success_only_for_mint _ "0xabc").1 (Or.inr rfl), ?_⟩
  rw [(mintReducer_tx_success_only_for_mint
    { initialState with txType := some TransactionType.mint } "0xabc").2 rfl]

/-- A state whose step is `success`: per the transition table, `success` is
not a predecessor of `MINT_START`. -/
def successState : MintState := { initialState with step := MintStep.success }

/-- C2 counterexample: `mintReducer` does not gate `*_START` actions on the
current step.  Dispatching `MINT_START` in the `success` state is neither a
no-op nor routed to `error`: it starts a fresh mint by switching the step to
`minting`, so the reducer does not refuse a `*_START` action arriving in a
state that does not legitimately precede it. -/
theorem mintReducer_start_gating_counterexample :
    mintReducer successState .MINT_START ≠ successState ∧
    (mintReducer successState .MINT_START).step ≠ MintStep.error ∧
    (mintReducer successState .MINT_START).step = MintStep.minting ∧
    (mintReducer successState .MINT_START).txType = some TransactionType.mint := by
  refine ⟨?_, by decide, by decide, by decide⟩
  intro h
  have : (mintReducer successState .MINT_START).step = successState.step :=
    congrArg MintState.step h
  simp [mintReducer, successState] at this

/-- C2 amended: the reducer accepts `DETECT_START`, `APPROVE_START` and
`MINT_START` in every state, transitioning unconditionally to `detecting`,
`approving` and `minting` respectively; single-flight of detection, approval
and mint is not enforced by the reducer's transition table. -/
theorem mintReducer_start_actions_unconditional (s : MintState) :
    mintReducer s .DETECT_START =
      { s with step := .detecting, isLoading := true, error := none } ∧
    mintReducer s .APPROVE_START =
      { s with step := .approving, isLoading := true, txType := some TransactionType.approval } ∧
    mintReducer s .MINT_START =
      { s with step := .minting, isLoading := true, txType := some TransactionType.mint } :=
  ⟨rfl, rfl, rfl⟩

/-- C3: `DETECT_SUCCESS` moves the step to `approve` exactly when the payload
has ERC-20 details with a known allowance strictly below the claim cost, and
to `sheet` otherwise; in both cases it stores the payload's `contractInfo`
and `priceData` (annotating `erc20Details` with the computed `needsApproval`
flag) and clears `isLoading`. -/
theorem mintReducer_detect_success_spec (s : MintState) (ci : NFTContractInfo)
    (pd : PriceData) :
    ((mintReducer s (.DETECT_SUCCESS ci pd)).step = MintStep.approve ↔
      ∃ d a cl, pd.erc20Details = some d ∧ d.allowance = some a ∧
        ci.claim = some cl ∧ a < cl.cost) ∧
    ((mintReducer s (.DETECT_SUCCESS ci pd)).step = MintStep.approve ∨
      (mintReducer s (.DETECT_SUCCESS ci pd)).step = MintStep.sheet) ∧
    (mintReducer s (.DETECT_SUCCESS ci pd)).contractInfo = some ci ∧
    (mintReducer s (.DETECT_SUCCESS ci pd)).priceData.mintPrice = pd.mintPrice ∧
    (mintReducer s (.DETECT_SUCCESS ci pd)).priceData.totalCost = pd.totalCost ∧
    (mintReducer s (.DETECT_SUCCESS ci pd)).priceData.erc20Details =
      pd.erc20Details.map
        (fun d => { d with needsApproval := detectNeedsApproval ci pd }) ∧
    (mintReducer s (.DETECT_SUCCESS ci pd)).isLoading = false := by
  refine ⟨?_, ?_, rfl, rfl, rfl, rfl, rfl⟩
  · rw [← detectNeedsApproval_eq_some_true_iff]
    by_cases hna : detectNeedsApproval ci pd = some true
    · simp [mintReducer, hna]
    · simp [mintReducer, hna]
  · by_cases hna : detectNeedsApproval ci pd = some true
    · exact Or.inl (by simp [mintReducer, hna])
    · exact Or.inr (by simp [mintReducer, hna])

/-- A detection payload whose ERC-20 allowance (5) is below the claim cost
(10). -/
def lowAllowanceInfo : NFTContractInfo :=
  { provider := .manifold
    isERC1155 := true
    isERC721 := false
    claim := some { cost := 10, merkleRoot := "0x0", erc20 := "0xtoken", startDate := 0, endDate := 0, walletMax := 0 } }

/-- Price data carrying the low allowance used by the C3 witness. -/
def lowAllowancePrice : PriceData :=
  { totalCost := 3
    erc20Details := some { address := "0xt", symbol := "USDC", decimals := 6, allowance := some 5 } }

/-- Witness for C3: the concrete low-allowance payload drives the reducer to
the `approve` step, via the theorem's equivalence. -/
theorem mintReducer_detect_success_spec_witness :
    (mintReducer initialState (.DETECT_SUCCESS lowAllowanceInfo lowAllowancePrice)).step =
      MintStep.approve :=
  (mintReducer_detect_success_spec initialState lowAllowanceInfo lowAllowancePrice).1.mpr
    ⟨{ address := "0xt", symbol := "USDC", decimals := 6, allowance := some 5 },
      5,
      { cost := 10, merkleRoot := "0x0", erc20 := "0xtoken", startDate := 0, endDate := 0, walletMax := 0 },
      rfl, rfl, rfl, by norm_num⟩

/-- C10: `TX_ERROR` moves every state to `error`, records the error message,
clears `isLoading` and `txType`, and leaves every other field — in
particular the previously recorded `txHash` — unchanged. -/
theorem mintReducer_tx_error_frame (s : MintState) (msg : String) :
    mintReducer s (.TX_ERROR msg) =
      { s with step := .error, error := some msg, isLoading := false, txType := none } ∧
    (mintReducer s (.TX_ERROR msg)).txHash = s.txHash ∧
    (mintReducer s (.TX_ERROR msg)).contractInfo = s.contractInfo ∧
    (mintReducer s (.TX_ERROR msg)).priceData = s.priceData ∧
    (mintReducer s (.TX_ERROR msg)).validationErrors = s.validationErrors :=
  ⟨rfl, rfl, rfl, rfl, rfl⟩

/-- Lower-cases a string character by character, as JS `toLowerCase` does on
the ASCII strings handled here. -/
def toLowerStr (s : String) : String := String.mk (s.toList.map Char.toLower)

/-- `MintParams` from `src/lib/types`. -/
structure MintParams where
  contractAddress : String
  chainId : Nat
  provider : Option NFTProvider := none
  amount : Option Nat := none
  instanceId : Option String := none
  tokenId : Option String := none
  recipient : Option String := none
  merkleProof : Option (List String) := none
deriving DecidableEq, Repr

/-- `params.amount || 1` as used throughout the configs (`0` is falsy). -/
def jsAmountOr1 (params : MintParams) : Nat :=
  match params.amount with
  | none => 1
  | some 0 => 1
  | some n => n

/-- The distinct ABI constants of `src/lib/nft-standards.ts` that the
provider configurations select among; the claims depend only on which
constant is chosen, so the ABI JSON bodies are represented by this enum. -/
inductive ABI
  | manifoldERC721Extension
  | manifoldERC1155Extension
  | priceDiscoveryStandard
  | mintStandard
  | thirdwebOpenEditionERC721
  | nfts2meMintFee
  | nfts2meMint
deriving DecidableEq, Repr

def MANIFOLD_ERC721_EXTENSION_ABI : ABI := .manifoldERC721Extension

def MANIFOLD_ERC1155_EXTENSION_ABI : ABI := .manifoldERC1155Extension

/-- `export const MANIFOLD_EXTENSION_ABI = MANIFOLD_ERC721_EXTENSION_ABI`
(backward-compatibility alias in `nft-standards.ts`). -/
def MANIFOLD_EXTENSION_ABI : ABI := MANIFOLD_ERC721_EXTENSION_ABI

def PRICE_DISCOVERY_ABI : ABI := .priceDiscoveryStandard

def MINT_ABI : ABI := .mintStandard

def THIRDWEB_OPENEDITONERC721_ABI : ABI := .thirdwebOpenEditionERC721

/-- `KNOWN_CONTRACTS.manifoldExtension` from `nft-standards.ts`. -/
def KNOWN_CONTRACTS_manifoldExtension : String :=
  "0x26BBEA7803DcAc346D5F5f135b57Cf2c752A02bE"

/-- `THIRDWEB_NATIVE_TOKEN` from `nft-standards.ts`. -/
def THIRDWEB_NATIVE_TOKEN : String :=
  "0xEeeeeEeeeEeEeeEeEeEeeEEEeeeeEeeeeeeeEEeE"

/-- `PriceDiscoveryConfig` from `src/lib/types`. -/
structure PriceDiscoveryConfig where
  abis : List ABI
  functionNames : List String
  requiresInstanceId : Option Bool := none
  requiresAmountParam : Option Bool := none

/-- `MintConfig` from `src/lib/types` (`buildArgs` returns a heterogeneous
JS array consumed only by the wallet layer and is not modelled). -/
structure MintConfig where
  abi : ABI
  functionName : String
  calculateValue : Nat → MintParams → Nat

/-- `ProviderConfig` from `src/lib/types`. -/
structure ProviderConfig where
  name : NFTProvider
  extensionAddresses : Option (List String) := none
  priceDiscovery : PriceDiscoveryConfig
  mintConfig : MintConfig
  requiredParams : List String
  supportsERC20 : Bool

/-- The `manifold` entry of `PROVIDER_CONFIGS` (`provider-configs`). -/
def manifoldConfig : ProviderConfig :=
  { name := .manifold
    extensionAddresses := some [KNOWN_CONTRACTS_manifoldExtension]
    priceDiscovery :=
      { abis := [MANIFOLD_EXTENSION_ABI]
        functionNames := ["MINT_FEE"]
        requiresInstanceId := some true }
    mintConfig :=
      { abi := MANIFOLD_EXTENSION_ABI
        functionName := "mint"
        calculateValue := fun mintFee _ => mintFee }
    requiredParams := ["contractAddress", "chainId"]
    supportsERC20 := true }

/-- The `opensea` entry of `PROVIDER_CONFIGS`. -/
def openseaConfig : ProviderConfig :=
  { name := .opensea
    priceDiscovery :=
      { abis := [PRICE_DISCOVERY_ABI]
        functionNames := ["mintPrice", "price", "publicMintPrice"] }
    mintConfig :=
      { abi := MINT_ABI
        functionName := "mint"
        calculateValue := fun price params => price * jsAmountOr1 params }
    requiredParams := ["contractAddress", "chainId"]
    supportsERC20 := false }

/-- The `zora` entry of `PROVIDER_CONFIGS`. -/
def zoraConfig : ProviderConfig :=
  { name := .zora
    priceDiscovery :=
      { abis := [PRICE_DISCOVERY_ABI]
        functionNames := ["mintPrice", "price"] }
    mintConfig :=
      { abi := MINT_ABI
        functionName := "mint"
        calculateValue := fun price params => price * jsAmountOr1 params }
    requiredParams := ["contractAddress", "chainId"]
    supportsERC20 := false }

/-- The `generic` entry of `PROVIDER_CONFIGS`. -/
def genericConfig : ProviderConfig :=
  { name := .generic
    priceDiscovery :=
      { abis := [PRICE_DISCOVERY_ABI]
        functionNames := ["mintPrice", "price", "MINT_PRICE", "getMintPrice"] }
    mintConfig :=
      { abi := MINT_ABI
        functionName := "mint"
        calculateValue := fun price params => price * jsAmountOr1 params }
    requiredParams := ["contractAddress", "chainId"]
    supportsERC20 := false }

/-- The `nfts2me` entry of `PROVIDER_CONFIGS`. -/
def nfts2meConfig : ProviderConfig :=
  { name := .nfts2me
    priceDiscovery :=
      { abis := [ABI.nfts2meMintFee]
        functionNames := ["mintFee"]
        requiresAmountParam := some true }
    mintConfig :=
      { abi := ABI.nfts2meMint
        functionName := "mint"
        calculateValue := fun price params => price * jsAmountOr1 params }
    requiredParams := ["contractAddress", "chainId"]
    supportsERC20 := false }

/-- The `thirdweb` entry of `PROVIDER_CONFIGS`. -/
def thirdwebConfig : ProviderConfig :=
  { name := .thirdweb
    priceDiscovery :=
      { abis := [THIRDWEB_OPENEDITONERC721_ABI]
        functionNames := ["claimCondition", "getClaimConditionById"]
        requiresInstanceId := some false }
    mintConfig :=
      { abi := THIRDWEB_OPENEDITONERC721_ABI
        functionName := "claim"
        calculateValue := fun price params => price * jsAmountOr1 params }
    requiredParams := ["contractAddress", "chainId"]
    supportsERC20 := true }

/-- `PROVIDER_CONFIGS` record lookup, keyed by the provider string. -/
def PROVIDER_CONFIGS (name : String) : Option ProviderConfig :=
  match name with
  | "manifold" => some manifoldConfig
  | "opensea" => some openseaConfig
  | "zora" => some zoraConfig
  | "generic" => some genericConfig
  | "nfts2me" => some nfts2meConfig
  | "thirdweb" => some thirdwebConfig
  | _ => none

/-- The string key of a provider, as used to index `PROVIDER_CONFIGS`. -/
def NFTProvider.key : NFTProvider → String
  | .manifold => "manifold"
  | .opensea => "opensea"
  | .zora => "zora"
  | .generic => "generic"
  | .nfts2me => "nfts2me"
  | .thirdweb => "thirdweb"

/-- `getManifoldABI` from `provider-configs`. -/
def getManifoldABI (contractInfo : Option NFTContractInfo) : ABI :=
  match contractInfo with
  | none => MANIFOLD_ERC721_EXTENSION_ABI
  | some ci =>
    if ci.isERC721 then MANIFOLD_ERC721_EXTENSION_ABI
    else if ci.isERC1155 then MANIFOLD_ERC1155_EXTENSION_ABI
    else MANIFOLD_ERC721_EXTENSION_ABI

/-- `getProviderConfig` from `provider-configs`. -/
def getProviderConfig (provider : String)
    (contractInfo : Option NFTContractInfo := none) : ProviderConfig :=
  let baseConfig := (PROVIDER_CONFIGS provider).getD genericConfig
  if provider == "manifold" then
    let manifoldABI := getManifoldABI contractInfo
    { baseConfig with
      priceDiscovery := { baseConfig.priceDiscovery with abis := [manifoldABI] }
      mintConfig := { baseConfig.mintConfig with abi := manifoldABI } }
  else if provider == "thirdweb" &&
      (match contractInfo with
        | some ci => ci.claimCondition.isSome
        | none => false) then
    { baseConfig with
      mintConfig :=
        { baseConfig.mintConfig with
          calculateValue := fun price params =>
            let currency :=
              match contractInfo with
              | some ci =>
                match ci.claimCondition with
                | some cc => cc.currency
                | none => ""
              | none => ""
            if currency == "" ||
                toLowerStr currency == toLowerStr THIRDWEB_NATIVE_TOKEN then
              price * jsAmountOr1 params
            else 0 } }
  else baseConfig

/-- C5: for the manifold (satellite-delegate) provider, `getProviderConfig`
selects the single-edition (ERC-721) extension ABI for both price discovery
and minting when `isERC721` is set; the multi-edition (ERC-1155) extension
ABI when only `isERC1155` is set; and defaults to the single-edition ABI
when both flags are false or no `contractInfo` is supplied. -/
theorem getProviderConfig_manifold_abi_selection (ci : NFTContractInfo) :
    (ci.isERC721 = true →
      (getProviderConfig "manifold" (some ci)).priceDiscovery.abis =
          [MANIFOLD_ERC721_EXTENSION_ABI] ∧
        (getProviderConfig "manifold" (some ci)).mintConfig.abi =
          MANIFOLD_ERC721_EXTENSION_ABI) ∧
    (ci.isERC721 = false → ci.isERC1155 = true →
      (getProviderConfig "manifold" (some ci)).priceDiscovery.abis =
          [MANIFOLD_ERC1155_EXTENSION_ABI] ∧
        (getProviderConfig "manifold" (some ci)).mintConfig.abi =
          MANIFOLD_ERC1155_EXTENSION_ABI) ∧
    (ci.isERC721 = false → ci.isERC1155 = false →
      (getProviderConfig "manifold" (some ci)).priceDiscovery.abis =
          [MANIFOLD_ERC721_EXTENSION_ABI] ∧
        (getProviderConfig "manifold" (some ci)).mintConfig.abi =
          MANIFOLD_ERC721_EXTENSION_ABI) ∧
    ((getProviderConfig "manifold" none).priceDiscovery.abis =
        [MANIFOLD_ERC721_EXTENSION_ABI] ∧
      (getProviderConfig "manifold" none).mintConfig.abi =
        MANIFOLD_ERC721_EXTENSION_ABI) := by
  refine ⟨?_, ?_, ?_, by constructor <;> rfl⟩
  · intro h721
    constructor <;> simp [getProviderConfig, getManifoldABI, PROVIDER_CONFIGS, h721]
  · intro h721 h1155
    constructor <;> simp [getProviderConfig, getManifoldABI, PROVIDER_CONFIGS, h721, h1155]
  · intro h721 h1155
    constructor <;> simp [getProviderConfig, getManifoldABI, PROVIDER_CONFIGS, h721, h1155]

/-- A detection result marking the contract as ERC-1155 only. -/
def erc1155Info : NFTContractInfo :=
  { provider := .manifold, isERC1155 := true, isERC721 := false }

/-- Witness for C5: on a concrete ERC-1155 contract info the multi-edition
ABI is selected, via the theorem's second conjunct. -/
theorem getProviderConfig_manifold_abi_selection_witness :
    (getProviderConfig "manifold" (some erc1155Info)).mintConfig.abi =
      MANIFOLD_ERC1155_EXTENSION_ABI :=
  ((getProviderConfig_manifold_abi_selection erc1155Info).2.1 rfl rfl).2

/-- Outcomes of the independent contract-read probes issued by
`detectNFTProvider` (`src/lib/provider-detector.ts`); an `Except.error`
models the corresponding promise rejecting. -/
structure DetectionEnv where
  supportsERC721 : Except String Bool
  supportsERC1155 : Except String Bool
  getExtensions : Except String (List String)
  n2mVersion : Except String Nat
  claimCondition : Except String (Nat × Nat)
  sharedMetadata : Except String Unit

/-- The NFTs2Me / thirdweb / generic tail of the detection `try` block
(`provider-detector.ts` lines 108-213): each probe has its own
try/catch, so a failed probe only moves detection to the next branch. -/
def detectTail (env : DetectionEnv) (isERC721 isERC1155 : Bool) :
    Except String NFTContractInfo :=
  match env.n2mVersion with
  | .ok _version =>
    .ok { provider := .nfts2me, isERC1155 := isERC1155, isERC721 := isERC721 }
  | .error _ =>
    match env.claimCondition with
    | .ok _claimConditionResult =>
      .ok { provider := .thirdweb, isERC1155 := isERC1155, isERC721 := isERC721 }
    | .error _ =>
      .ok { provider := .generic, isERC1155 := isERC1155, isERC721 := isERC721 }

/-- The body of the `try` block of `detectNFTProvider`
(`provider-detector.ts` lines 58-213).  The three batched probes each carry
`.catch` handlers mapping failure to `false` / `false` / `null`. -/
def detectTry (env : DetectionEnv) : Except String NFTContractInfo :=
  let isERC721 := env.supportsERC721.toOption.getD false
  let isERC1155 := env.supportsERC1155.toOption.getD false
  let extensions := env.getExtensions.toOption
  match extensions with
  | some exts =>
    if exts.length > 0 then
      let knownManifoldExtension := exts.find? (fun ext =>
        (manifoldConfig.extensionAddresses.getD []).contains ext)
      if knownManifoldExtension.isSome || exts.length > 0 then
        .ok { provider := .manifold
              isERC1155 := isERC1155
              isERC721 := isERC721
              extensionAddress := some (knownManifoldExtension.getD exts.headI)
              hasManifoldExtension := some true }
      else detectTail env isERC721 isERC1155
    else detectTail env isERC721 isERC1155
  | none => detectTail env isERC721 isERC1155

/-- `detectNFTProvider` from `src/lib/provider-detector.ts`.  The
specified-provider branch sits outside the `try`; the `try` body is
`detectTry` and the outer `catch` degrades any escaped error to the
`generic` provider. -/
def detectNFTProvider (params : MintParams) (env : DetectionEnv) :
    Except String NFTContractInfo :=
  match params.provider with
  | some specifiedProvider =>
    if specifiedProvider = .manifold &&
        (((((PROVIDER_CONFIGS specifiedProvider.key).getD
          genericConfig).extensionAddresses).getD []).head?).isSome then
      .ok { provider := .manifold
            isERC1155 := true
            isERC721 := false
            extensionAddress :=
              (((((PROVIDER_CONFIGS specifiedProvider.key).getD
                genericConfig).extensionAddresses).getD []).head?)
            hasManifoldExtension := some true }
    else
      .ok { provider := specifiedProvider, isERC1155 := false, isERC721 := false }
  | none =>
    match detectTry env with
    | .ok info => .ok info
    | .error _ =>
      .ok { provider := .generic, isERC1155 := false, isERC721 := false }

/-- C4: provider detection never throws.  For every `MintParams` and every
combination of probe outcomes the function returns a `ContractInfo`
(`Except.ok`), and when no provider is specified and each classifying probe
fails, the result degrades to provider `generic` with the interface flags
defaulted through their per-probe catch handlers. -/
theorem detectNFTProvider_never_throws (params : MintParams)
    (env : DetectionEnv) (e1 e2 e3 : String) :
    (∃ info, detectNFTProvider params env = .ok info) ∧
    (params.provider = none →
      env.getExtensions = .error e1 →
      env.n2mVersion = .error e2 →
      env.claimCondition = .error e3 →
      detectNFTProvider params env =
        .ok { provider := .generic
              isERC1155 := env.supportsERC1155.toOption.getD false
              isERC721 := env.supportsERC721.toOption.getD false }) := by
  constructor
  · suffices h : (detectNFTProvider params env).isOk = true by
      cases hr : detectNFTProvider params env with
      | ok info => exact ⟨info, rfl⟩
      | error e => rw [hr] at h; simp [Except.isOk, Except.toBool] at h
    unfold detectNFTProvider
    split
    · split
      · rfl
      · rfl
    · split
      · rfl
      · rfl
  · intro hp hx hn hc
    unfold detectNFTProvider detectTry detectTail
    rw [hp, hx, hn, hc]
    rfl

/-- A probe environment in which every contract read fails. -/
def allFailEnv : DetectionEnv :=
  { supportsERC721 := .error "revert"
    supportsERC1155 := .error "revert"
    getExtensions := .error "revert"
    n2mVersion := .error "revert"
    claimCondition := .error "revert"
    sharedMetadata := .error "revert" }

/-- Parameters with no explicit provider override. -/
def plainParams : MintParams := { contractAddress := "0xc0ffee", chainId := 8453 }

/-- Witness for C4: with every probe failing, detection still returns a
result, and that result is the generic provider. -/
theorem detectNFTProvider_never_throws_witness :
    detectNFTProvider plainParams allFailEnv =
      .ok { provider := .generic, isERC1155 := false, isERC721 := false } :=
  (detectNFTProvider_never_throws plainParams allFailEnv "revert" "revert" "revert").2
    rfl rfl rfl rfl

/-- C6: a contract whose extension-list probe returns a non-empty list is
classified as `manifold`, with `extensionAddress` the first returned
extension that appears in the catalog's well-known list, or else the first
returned extension; for a singleton list the result is that one address. -/
theorem detectNFTProvider_manifold_extensions (params : MintParams)
    (env : DetectionEnv) (a : String) (rest : List String) :
    params.provider = none →
    env.getExtensions = .ok (a :: rest) →
    (detectNFTProvider params env =
      .ok { provider := .manifold
            isERC1155 := env.supportsERC1155.toOption.getD false
            isERC721 := env.supportsERC721.toOption.getD false
            extensionAddress := some
              (((a :: rest).find? (fun ext =>
                (manifoldConfig.extensionAddresses.getD []).contains ext)).getD a)
            hasManifoldExtension := some true }) ∧
    (rest = [] →
      ∃ info, detectNFTProvider params env = .ok info ∧
        info.provider = .manifold ∧ info.extensionAddress = some a) := by
  intro hp hx
  have hmain : detectNFTProvider params env =
      .ok { provider := .manifold
            isERC1155 := env.supportsERC1155.toOption.getD false
            isERC721 := env.supportsERC721.toOption.getD false
            extensionAddress := some
              (((a :: rest).find? (fun ext =>
                (manifoldConfig.extensionAddresses.getD []).contains ext)).getD a)
            hasManifoldExtension := some true } := by
    unfold detectNFTProvider detectTry
    rw [hp, hx]
    simp [Except.toOption, List.headI]
  refine ⟨hmain, ?_⟩
  rintro rfl
  refine ⟨_, hmain, rfl, ?_⟩
  simp only [Option.some.injEq]
  cases hfind : [a].find? (fun ext =>
      (manifoldConfig.extensionAddresses.getD []).contains ext) with
  | none => rfl
  | some b =>
    have := List.find?_some hfind
    have hb : b ∈ [a] := List.mem_of_find?_eq_some hfind
    simp only [List.mem_singleton] at hb
    subst hb
    rfl

/-- A probe environment whose extension list returns one address. -/
def oneExtensionEnv : DetectionEnv :=
  { supportsERC721 := .ok false
    supportsERC1155 := .ok true
    getExtensions := .ok ["0x1234"]
    n2mVersion := .error "no n2mVersion"
    claimCondition := .error "no claimCondition"
    sharedMetadata := .error "no sharedMetadata" }

/-- Witness for C6: a singleton extension list yields the manifold provider
with that extension address. -/
theorem detectNFTProvider_manifold_extensions_witness :
    ∃ info, detectNFTProvider plainParams oneExtensionEnv = .ok info ∧
      info.provider = .manifold ∧ info.extensionAddress = some "0x1234" :=
  ((detectNFTProvider_manifold_extensions plainParams oneExtensionEnv
    "0x1234" [] rfl rfl).2) rfl

/-- The zero address literal compared against `claim.erc20` in
`price-optimizer.ts`. -/
def ZERO_ADDRESS : String := "0x0000000000000000000000000000000000000000"

/-- The ERC-20 payment descriptor returned by `fetchPriceData`
(`price-optimizer.ts`): `allowance`/`balance` stay `undefined` when they
were not fetched. -/
structure ERC20PriceDetails where
  address : String
  symbol : String
  decimals : Nat
  allowance : Option Nat := none
  balance : Option Nat := none
deriving DecidableEq, Repr

/-- The quote returned by `fetchPriceData` (`price-optimizer.ts`). -/
structure PriceQuote where
  mintPrice : Option Nat := none
  erc20Details : Option ERC20PriceDetails := none
  totalCost : Nat
  claim : Option ClaimInfo := none
deriving DecidableEq, Repr

/-- Outcomes of the contract reads issued by the manifold branch of
`fetchPriceData`: the `MINT_FEE` fetch (through `callManifoldWithFallback`),
the claim fetch (`getClaim` / `getClaimForToken`, already unwrapped to the
claim record), and the ERC-20 `symbol` / `decimals` / `allowance` /
`balanceOf` reads. -/
structure PriceEnv where
  mintFee : Except String Nat
  claimData : Except String ClaimInfo
  symbol : Except String String
  decimals : Except String Nat
  allowance : Except String Nat
  balance : Except String Nat

/-- `claim.erc20 && claim.erc20 !== "0x00...00"`: the ERC-20 payment test of
`price-optimizer.ts` (an empty string is falsy in JS). -/
def isERC20Payment (erc20 : String) : Bool :=
  !(erc20 == "") && !(erc20 == ZERO_ADDRESS)

/-- The `catch` fallback of the manifold branch of `fetchPriceData`
(`price-optimizer.ts` lines 252-278): retry `MINT_FEE` alone, else fall
back to the hardcoded 0.0005 ETH manifold fee. -/
def manifoldPriceFallback (env : PriceEnv) : PriceQuote :=
  match env.mintFee with
  | .ok mintFee => { mintPrice := some mintFee, totalCost := mintFee }
  | .error _ => { totalCost := 500000000000000 }

/-- The manifold arm of `fetchPriceData` (`price-optimizer.ts` lines
73-278), for a contract info carrying an `extensionAddress`.  The
`MINT_FEE` and claim promises carry `.catch` handlers mapping failure to
`null`; the ERC-20 `symbol`/`decimals` reads are uncaught, so their failure
reaches the outer `catch` (`manifoldPriceFallback`); the `allowance` and
`balanceOf` reads are issued only when `params.recipient` is present and
individually default to `0` on failure. -/
def fetchPriceDataManifold (env : PriceEnv) (params : MintParams) : PriceQuote :=
  let mintFee : Option Nat := env.mintFee.toOption
  let claim : Option ClaimInfo :=
    if params.instanceId.isSome || params.tokenId.isSome then
      env.claimData.toOption
    else none
  match claim with
  | none =>
    { mintPrice := some (mintFee.getD 0), totalCost := mintFee.getD 0 }
  | some c =>
    if isERC20Payment c.erc20 then
      match env.symbol, env.decimals with
      | .ok symbol, .ok decimals =>
        if decimals > 255 then manifoldPriceFallback env
        else
          { mintPrice := some (mintFee.getD 0)
            erc20Details := some
              { address := c.erc20
                symbol := symbol
                decimals := decimals
                allowance :=
                  if params.recipient.isSome then
                    some (env.allowance.toOption.getD 0)
                  else none
                balance :=
                  if params.recipient.isSome then
                    some (env.balance.toOption.getD 0)
                  else none }
            totalCost := mintFee.getD 0
            claim := some c }
      | _, _ => manifoldPriceFallback env
    else
      { mintPrice := some (mintFee.getD 0)
        totalCost := mintFee.getD 0 + c.cost
        claim := some c }

/-- C7: in manifold price discovery, an ERC-20 claim (non-zero `erc20`
address) yields `totalCost` equal to the flat mint fee alone with
`allowance` and `balance` left undefined when no recipient is supplied,
while a native-payment claim (zero `erc20` address) yields `totalCost`
equal to mint fee plus claim cost. -/
theorem fetchPriceDataManifold_erc20_vs_native (env : PriceEnv)
    (params : MintParams) (c : ClaimInfo) (f : Nat) (symbol : String)
    (decimals : Nat) :
    env.mintFee = .ok f →
    (params.instanceId.isSome || params.tokenId.isSome) = true →
    env.claimData = .ok c →
    env.symbol = .ok symbol →
    env.decimals = .ok decimals →
    decimals ≤ 255 →
    params.recipient = none →
    (isERC20Payment c.erc20 = true →
      (fetchPriceDataManifold env params).totalCost = f ∧
      (fetchPriceDataManifold env params).erc20Details = some
        { address := c.erc20, symbol := symbol, decimals := decimals,
          allowance := none, balance := none }) ∧
    (isERC20Payment c.erc20 = false →
      (fetchPriceDataManifold env params).totalCost = f + c.cost ∧
      (fetchPriceDataManifold env params).erc20Details = none) := by
  intro hf hid hc hs hd hdec hr
  have hq : fetchPriceDataManifold env params =
      (if isERC20Payment c.erc20 then
        { mintPrice := some f
          erc20Details := some
            { address := c.erc20, symbol := symbol, decimals := decimals,
              allowance := none, balance := none }
          totalCost := f
          claim := some c }
      else
        { mintPrice := some f
          totalCost := f + c.cost
          claim := some c } : PriceQuote) := by
    unfold fetchPriceDataManifold
    rw [hf, hc, hs, hd, hid]
    simp only [Except.toOption, if_true, Option.getD_some]
    by_cases h20 : isERC20Payment c.erc20 = true
    · rw [if_pos h20, if_pos h20]
      rw [if_neg (by rw [Nat.not_lt_eq]; exact hdec)]
      rw [hr]
      rfl
    · rw [if_neg h20, if_neg h20]
  constructor
  · intro h20
    rw [hq, if_pos h20]
    exact ⟨rfl, rfl⟩
  · intro h20
    rw [hq, if_neg (by rw [h20]; exact Bool.false_ne_true)]
    exact ⟨rfl, rfl⟩

/-- A fetched claim paying in an ERC-20 token. -/
def erc20Claim : ClaimInfo :=
  { cost := 7, merkleRoot := "0x0", erc20 := "0xfeed", startDate := 0,
    endDate := 0, walletMax := 0 }

/-- A fetched claim paying in the native currency. -/
def nativeClaim : ClaimInfo :=
  { cost := 7, merkleRoot := "0x0", erc20 := ZERO_ADDRESS, startDate := 0,
    endDate := 0, walletMax := 0 }

/-- A price probe environment returning mint fee 3 and the ERC-20 claim. -/
def erc20PriceEnv : PriceEnv :=
  { mintFee := .ok 3
    claimData := .ok erc20Claim
    symbol := .ok "TOK"
    decimals := .ok 18
    allowance := .error "not fetched"
    balance := .error "not fetched" }

/-- Parameters carrying an instance id and no recipient. -/
def instanceParams : MintParams :=
  { contractAddress := "0xc0ffee", chainId := 8453, instanceId := some "42" }

/-- Witness for C7: with mint fee 3, an ERC-20 claim quotes total cost 3
with undefined allowance/balance, and the same claim with the zero address
quotes 3 + 7. -/
theorem fetchPriceDataManifold_erc20_vs_native_witness :
    ((fetchPriceDataManifold erc20PriceEnv instanceParams).totalCost = 3 ∧
      (fetchPriceDataManifold erc20PriceEnv instanceParams).erc20Details = some
        { address := "0xfeed", symbol := "TOK", decimals := 18,
          allowance := none, balance := none }) ∧
    (fetchPriceDataManifold
      { erc20PriceEnv with claimData := .ok nativeClaim }
      instanceParams).totalCost = 3 + 7 := by
  refine ⟨?_, ?_⟩
  · exact (fetchPriceDataManifold_erc20_vs_native erc20PriceEnv instanceParams
      erc20Claim 3 "TOK" 18 rfl rfl rfl rfl rfl (by decide) rfl).1 rfl
  · exact ((fetchPriceDataManifold_erc20_vs_native
      { erc20PriceEnv with claimData := .ok nativeClaim } instanceParams
      nativeClaim 3 "TOK" 18 rfl rfl rfl rfl rfl (by decide) rfl).2 rfl).1

/-- `ProviderHint` from the metadata utilities. -/
inductive ProviderHint
  | manifold | thirdweb | standard | erc1155
deriving DecidableEq, Repr

/-- Whether `pat` is a prefix of `l` (character lists). -/
def startsWithList : List Char → List Char → Bool
  | _, [] => true
  | [], _ :: _ => false
  | a :: as, b :: bs => a == b && startsWithList as bs

/-- JS `String.prototype.replace` with a string pattern: replace the first
occurrence only. -/
def replaceFirstList : List Char → List Char → List Char → List Char
  | [], pat, rep => if startsWithList [] pat then rep else []
  | a :: as, pat, rep =>
    if startsWithList (a :: as) pat then rep ++ (a :: as).drop pat.length
    else a :: replaceFirstList as pat rep

/-- JS `uri.replace(pat, rep)` (first occurrence only). -/
def replaceFirst (s pat rep : String) : String :=
  String.mk (replaceFirstList s.toList pat.toList rep.toList)

/-- JS `String.prototype.padStart` with a single pad character. -/
def padStart (s : String) (n : Nat) (c : Char) : String :=
  if n ≤ s.length then s
  else String.mk (List.replicate (n - s.length) c ++ s.toList)

/-- Whether a string ends with `/` (the base-URI joining check). -/
def endsWithSlash (s : String) : Bool :=
  match s.toList.getLast? with
  | some '/' => true
  | _ => false

/-- The base64 alphabet used by JS `btoa`. -/
def base64Table : String :=
  "ABCDEFGHIJKLMNOPQRSTUVWXYZabcdefghijklmnopqrstuvwxyz0123456789+/"

/-- The base64 digit for a 6-bit value. -/
def base64Char (n : Nat) : Char := base64Table.toList.getD n 'A'

/-- base64 encoding of a byte list, three bytes at a time with `=` padding. -/
def base64EncodeList : List Nat → List Char
  | [] => []
  | [a] => [base64Char (a / 4), base64Char (a % 4 * 16), '=', '=']
  | [a, b] =>
    [base64Char (a / 4), base64Char (a % 4 * 16 + b / 16),
      base64Char (b % 16 * 4), '=']
  | a :: b :: c :: rest =>
    base64Char (a / 4) :: base64Char (a % 4 * 16 + b / 16) ::
      base64Char (b % 16 * 4 + c / 64) :: base64Char (c % 64) ::
      base64EncodeList rest

/-- JS `btoa` on the latin-1 code points of the string. -/
def btoa (s : String) : String :=
  String.mk (base64EncodeList (s.toList.map Char.toNat))

/-- JSON string escaping for the characters relevant here. -/
def jsonEscapeChar (c : Char) : List Char :=
  if c = '"' then ['\\', '"']
  else if c = '\\' then ['\\', '\\']
  else [c]

/-- JSON string escaping. -/
def jsonEscape (s : String) : String :=
  String.mk (s.toList.map jsonEscapeChar).flatten

/-- The thirdweb `sharedMetadata` tuple (name, description, image,
animationUrl). -/
structure SharedMetadata where
  name : String
  description : String
  image : String
  animationUrl : String
deriving DecidableEq, Repr

/-- `JSON.stringify` of the metadata object the resolver synthesizes from
`sharedMetadata`: `name` falls back to `nameDefault` and `animation_url`
is dropped when `animationUrl` is falsy (the `|| undefined` pattern). -/
def sharedMetadataJson (nameDefault : String) (m : SharedMetadata) : String :=
  "\x7b\"name\":\"" ++ jsonEscape (if m.name == "" then nameDefault else m.name) ++
    "\",\"description\":\"" ++ jsonEscape m.description ++
    "\",\"image\":\"" ++ jsonEscape m.image ++ "\"" ++
    (if m.animationUrl == "" then ""
      else ",\"animation_url\":\"" ++ jsonEscape m.animationUrl ++ "\"") ++
    "\x7d"

/-- Hexadecimal digit test. -/
def isHexDigit (c : Char) : Bool :=
  c.isDigit || ('a' ≤ c && c ≤ 'f') || ('A' ≤ c && c ≤ 'F')

/-- viem's `getAddress`, modelled on its interface: it validates the
`0x` + 40-hex-digit shape and throws `InvalidAddressError` otherwise
(the checksumming of the returned value is irrelevant here and the valid
address is returned unchanged). -/
def getAddress (s : String) : Except String String :=
  if s.length == 42 && startsWithList s.toList ['0', 'x'] &&
      (s.toList.drop 2).all isHexDigit then
    .ok s
  else .error "InvalidAddressError"

/-- Decimal digits to a natural number. -/
def digitsToNat (l : List Char) : Nat :=
  l.foldl (fun acc c => acc * 10 + (c.toNat - 48)) 0

/-- JS `BigInt(string)`, modelled for the inputs relevant here: the empty
string is `0n`, a decimal digit string is its value, anything else throws a
`SyntaxError`. -/
def jsBigInt (s : String) : Except String Nat :=
  if s == "" then .ok 0
  else if s.toList.all Char.isDigit then .ok (digitsToNat s.toList)
  else .error "SyntaxError"

/-- Outcomes of the contract reads available to `getTokenMetadataURL`
(`getTokenMetadataURL`'s six fallback methods and the provider-hint
probes share these). -/
structure MetadataEnv where
  tokenURI : Except String String
  uri : Except String String
  getExtensions : Except String (List String)
  manifoldTokenURI : Except String String
  contractURI : Except String String
  sharedMetadata : Except String SharedMetadata
  baseURI : Except String String

/-- `ManifoldDetectionResult` from the metadata utilities. -/
structure ManifoldDetectionResult where
  isManifold : Bool
  extensionAddress : Option String := none
  extensions : Option (List String) := none
deriving DecidableEq, Repr

/-- `detectManifoldContract`: probe `getExtensions`, returning
`isManifold := false` on failure or an empty list; otherwise prefer the
well-known extension address (case-insensitive comparison) over the first
returned extension. -/
def detectManifoldContract (env : MetadataEnv) : ManifoldDetectionResult :=
  match env.getExtensions with
  | .error _ => { isManifold := false }
  | .ok exts =>
    if exts.length == 0 then { isManifold := false }
    else
      let knownExtension := exts.find? (fun ext =>
        toLowerStr ext == toLowerStr KNOWN_CONTRACTS_manifoldExtension)
      { isManifold := true
        extensionAddress := some (knownExtension.getD exts.headI)
        extensions := some exts }

/-- The provider-hint attempt of `getTokenMetadataURL` (the `switch` inside
the leading `try`): `some s` when the hinted method returned a string,
`none` when it failed or did not apply, in which case the fallback chain
runs. -/
def metadataHintAttempt (env : MetadataEnv) (tokenId : String)
    (providerHint : Option ProviderHint) : Option String :=
  match providerHint with
  | none => none
  | some .manifold =>
    let manifoldInfo := detectManifoldContract env
    if manifoldInfo.isManifold && manifoldInfo.extensionAddress.isSome then
      env.manifoldTokenURI.toOption
    else none
  | some .erc1155 =>
    (env.uri.toOption).map (fun uri =>
      replaceFirst uri "{id}" (padStart tokenId 64 '0'))
  | some .thirdweb =>
    match env.sharedMetadata with
    | .error _ => none
    | .ok metadata =>
      if metadata.image != "" then
        some ("data:application/json;base64," ++
          btoa (sharedMetadataJson "" metadata))
      else none
  | some .standard => none

/-- The six-method fallback chain of `getTokenMetadataURL`, as the list of
each method's outcome in order. -/
def metadataFallbackMethods (env : MetadataEnv) (tokenId : String) :
    List (Except String String) :=
  [ env.tokenURI
  , (env.uri).map (fun uri =>
      replaceFirst uri "{id}" (padStart tokenId 64 '0'))
  , (let manifoldInfo := detectManifoldContract env
     if manifoldInfo.isManifold && manifoldInfo.extensionAddress.isSome then
       env.manifoldTokenURI
     else .error "Not a Manifold contract")
  , env.contractURI
  , (match env.sharedMetadata with
     | .error e => .error e
     | .ok metadata =>
       if metadata.image != "" then
         .ok ("data:application/json;base64," ++
           btoa (sharedMetadataJson ("Token #" ++ tokenId) metadata))
       else .error "No shared metadata found")
  , (match env.baseURI with
     | .error e => .error e
     | .ok baseURI =>
       if baseURI != "" then
         .ok (baseURI ++ (if endsWithSlash baseURI then "" else "/") ++ tokenId)
       else .error "No baseURI found") ]

/-- The `for` loop over the fallback methods: the first successful,
non-empty string wins; if all methods fail the loop falls through to
`return ""`. -/
def firstNonEmptyResult : List (Except String String) → String
  | [] => ""
  | .ok s :: rest => if s != "" then s else firstNonEmptyResult rest
  | .error _ :: rest => firstNonEmptyResult rest

/-- Everything `getTokenMetadataURL` does after the `getAddress` /
`BigInt` parsing: hint attempt first, then the fallback chain.  No failure
escapes this part — every probe is inside a `try` or the loop's `catch`. -/
def getTokenMetadataURLBody (env : MetadataEnv) (tokenId : String)
    (providerHint : Option ProviderHint) : String :=
  match metadataHintAttempt env tokenId providerHint with
  | some s => s
  | none => firstNonEmptyResult (metadataFallbackMethods env tokenId)

/-- `getTokenMetadataURL` from the metadata utilities.  The
`getAddress(contractAddress)` and `BigInt(tokenId)` calls sit before any
`try` block, so their failures propagate to the caller; everything after
them is fault-isolated. -/
def getTokenMetadataURL (env : MetadataEnv) (contractAddress : String)
    (tokenId : String) (providerHint : Option ProviderHint := none) :
    Except String String :=
  match getAddress contractAddress with
  | .error e => .error e
  | .ok _address =>
    match jsBigInt tokenId with
    | .error e => .error e
    | .ok _tokenIdBigInt =>
      .ok (getTokenMetadataURLBody env tokenId providerHint)

/-- A metadata environment in which every contract read fails. -/
def allFailMetadataEnv : MetadataEnv :=
  { tokenURI := .error "revert"
    uri := .error "revert"
    getExtensions := .error "revert"
    manifoldTokenURI := .error "revert"
    contractURI := .error "revert"
    sharedMetadata := .error "revert"
    baseURI := .error "revert" }

/-- C8 counterexample: `getTokenMetadataURL` is not exception-free.  With a
non-numeric `tokenId` the `BigInt(tokenId)` parse at entry — which sits
before every `try` block — throws, so the function propagates an exception
instead of returning a string. -/
theorem getTokenMetadataURL_throws_counterexample :
    getTokenMetadataURL allFailMetadataEnv
      "0xaaaaaaaaaaaaaaaaaaaaaaaaaaaaaaaaaaaaaaaa" "xyz" none =
      .error "SyntaxError" := rfl

/-- C8 amended: once `contractAddress` parses as an address and `tokenId`
parses as a BigInt, the resolver never throws: it answers with the hinted
method's string when that method succeeds and otherwise with the first
non-empty string of the fallback chain; it returns the empty string when
every method fails, and a failing `providerHint` does not skip the
remaining fallback chain.  Failures of the entry parses themselves
propagate as exceptions. -/
theorem getTokenMetadataURL_fallback_spec (env : MetadataEnv)
    (contractAddress tokenId : String) (hint : Option ProviderHint)
    (a : String) (n : Nat)
    (haddr : getAddress contractAddress = .ok a)
    (hbig : jsBigInt tokenId = .ok n) :
    (getTokenMetadataURL env contractAddress tokenId hint =
      .ok (getTokenMetadataURLBody env tokenId hint)) ∧
    (∀ e1 e2 e3 e4 e5 e6 e7 : String,
      env.tokenURI = .error e1 → env.uri = .error e2 →
      env.getExtensions = .error e3 → env.manifoldTokenURI = .error e4 →
      env.contractURI = .error e5 → env.sharedMetadata = .error e6 →
      env.baseURI = .error e7 →
      getTokenMetadataURL env contractAddress tokenId hint = .ok "") ∧
    (∀ e s, env.getExtensions = .error e → env.tokenURI = .ok s → s ≠ "" →
      getTokenMetadataURL env contractAddress tokenId (some .manifold) =
        .ok s) ∧
    (∀ s, env.tokenURI = .ok s → s ≠ "" →
      getTokenMetadataURL env contractAddress tokenId none = .ok s) := by
  have hok : ∀ h : Option ProviderHint,
      getTokenMetadataURL env contractAddress tokenId h =
        .ok (getTokenMetadataURLBody env tokenId h) := by
    intro h
    unfold getTokenMetadataURL
    rw [haddr, hbig]
  refine ⟨hok hint, ?_, ?_, ?_⟩
  · intro e1 e2 e3 e4 e5 e6 e7 h1 h2 h3 h4 h5 h6 h7
    rw [hok hint]
    cases hint with
    | none =>
      simp [getTokenMetadataURLBody, metadataHintAttempt,
        metadataFallbackMethods, detectManifoldContract, firstNonEmptyResult,
        h1, h2, h3, h4, h5, h6, h7, Except.toOption, Except.map]
    | some h =>
      cases h <;>
        simp [getTokenMetadataURLBody, metadataHintAttempt,
          metadataFallbackMethods, detectManifoldContract, firstNonEmptyResult,
          h1, h2, h3, h4, h5, h6, h7, Except.toOption, Except.map]
  · intro e s he hs hne
    rw [hok (some .manifold)]
    simp [getTokenMetadataURLBody, metadataHintAttempt,
      metadataFallbackMethods, detectManifoldContract, firstNonEmptyResult,
      he, hs, hne, Except.toOption, Except.map]
  · intro s hs hne
    rw [hok none]
    simp [getTokenMetadataURLBody, metadataHintAttempt,
      metadataFallbackMethods, firstNonEmptyResult, hs, hne,
      Except.toOption, Except.map]

/-- Witness for the amended C8: with a valid address, token id `7`, a
thirdweb hint, and every read failing, the resolver returns `""` rather
than throwing; and with a failing manifold hint but a working `tokenURI`,
the chain still produces that URI. -/
theorem getTokenMetadataURL_fallback_spec_witness :
    getTokenMetadataURL allFailMetadataEnv
      "0xaaaaaaaaaaaaaaaaaaaaaaaaaaaaaaaaaaaaaaaa" "7"
      (some .thirdweb) = .ok "" ∧
    getTokenMetadataURL { allFailMetadataEnv with tokenURI := .ok "ipfs://x" }
      "0xaaaaaaaaaaaaaaaaaaaaaaaaaaaaaaaaaaaaaaaa" "7"
      (some .manifold) = .ok "ipfs://x" := by
  constructor
  · exact (getTokenMetadataURL_fallback_spec allFailMetadataEnv
      "0xaaaaaaaaaaaaaaaaaaaaaaaaaaaaaaaaaaaaaaaa" "7" (some .thirdweb)
      "0xaaaaaaaaaaaaaaaaaaaaaaaaaaaaaaaaaaaaaaaa" 7 rfl rfl).2.1
      "revert" "revert" "revert" "revert" "revert" "revert" "revert"
      rfl rfl rfl rfl rfl rfl rfl
  · exact (getTokenMetadataURL_fallback_spec
      { allFailMetadataEnv with tokenURI := .ok "ipfs://x" }
      "0xaaaaaaaaaaaaaaaaaaaaaaaaaaaaaaaaaaaaaaaa" "7" none
      "0xaaaaaaaaaaaaaaaaaaaaaaaaaaaaaaaaaaaaaaaa" 7 rfl rfl).2.2.1
      "revert" "ipfs://x" rfl rfl (by decide)

/-- Whether `pat` occurs as a contiguous substring of `l` (JS
`String.prototype.includes`). -/
def hasSubList : List Char → List Char → Bool
  | [], pat => startsWithList [] pat
  | a :: as, pat => startsWithList (a :: as) pat || hasSubList as pat

/-- JS `errorMessage.includes(pat)`. -/
def includesStr (s pat : String) : Bool := hasSubList s.toList pat.toList

/-- `ErrorType` from the error classifier. -/
inductive ErrorType
  | insufficientFunds | wrongNetwork | userRejected | contractError
  | allowanceError | networkError | unknown
deriving DecidableEq, Repr

/-- `ParsedError` from the error classifier (the optional `action` callback
is not modelled). -/
structure ParsedError where
  type : ErrorType
  message : String
  details : Option String := none
  actionText : Option String := none
deriving DecidableEq, Repr

/-- The classifier's `context` parameter. -/
inductive ErrorContext
  | approval | mint
deriving DecidableEq, Repr

/-- `parseError` from the error classifier, over the raw error text
(`String(error)`), which the function immediately lower-cases. -/
def parseError (error : String) (context : ErrorContext) : ParsedError :=
  let errorMessage := toLowerStr error
  if includesStr errorMessage "user rejected" ||
      includesStr errorMessage "user denied" then
    { type := .userRejected
      message := "Transaction cancelled"
      details := some "You rejected the transaction in your wallet"
      actionText := some "Try again" }
  else if includesStr errorMessage "insufficient funds" ||
      includesStr errorMessage "insufficient balance" ||
      includesStr errorMessage "not enough" ||
      includesStr errorMessage "exceeds balance" then
    { type := .insufficientFunds
      message := "Insufficient funds"
      details := some (match context with
        | .approval => "You don\x27t have enough tokens to approve this amount"
        | .mint => "You don\x27t have enough funds to complete this transaction. Check both token balance and ETH for gas.")
      actionText := some "Check wallet balance" }
  else if includesStr errorMessage "network" ||
      includesStr errorMessage "chain" ||
      includesStr errorMessage "chainid" then
    { type := .wrongNetwork
      message := "Wrong network"
      details := some "Please switch to the correct network in your wallet"
      actionText := some "Switch network" }
  else if includesStr errorMessage "revert" ||
      includesStr errorMessage "execution reverted" ||
      includesStr errorMessage "contract error" then
    let details :=
      if includesStr errorMessage "sold out" ||
          includesStr errorMessage "max supply" then
        "This NFT is sold out or has reached maximum supply."
      else if includesStr errorMessage "not started" ||
          includesStr errorMessage "not active" then
        "Minting hasn\x27t started yet or has ended."
      else if includesStr errorMessage "max per wallet" ||
          includesStr errorMessage "exceeds max" then
        "You\x27ve reached the maximum amount allowed per wallet."
      else if includesStr errorMessage "allowlist" ||
          includesStr errorMessage "not eligible" then
        "You\x27re not eligible to mint this NFT. Check if it requires an allowlist."
      else "The contract rejected this transaction."
    { type := .contractError
      message := "Transaction failed"
      details := some details
      actionText := some "Try again later" }
  else if includesStr errorMessage "allowance" ||
      includesStr errorMessage "approve" then
    { type := .allowanceError
      message := "Approval required"
      details := some "You need to approve the contract spend your tokens first"
      actionText := some "Approve tokens" }
  else if includesStr errorMessage "timeout" ||
      includesStr errorMessage "network" ||
      includesStr errorMessage "fetch" ||
      includesStr errorMessage "rpc" then
    { type := .networkError
      message := "Network error"
      details := some "Connection issue with the blockchain. This is usually temporary."
      actionText := some "Try again" }
  else
    { type := .unknown
      message := "Transaction failed"
      details := some error
      actionText := some "Try again" }

/-- The user-rejected pattern group of `parseError`. -/
def matchesUserRejected (m : String) : Bool :=
  includesStr m "user rejected" || includesStr m "user denied"

/-- The insufficient-funds pattern group of `parseError`. -/
def matchesInsufficientFunds (m : String) : Bool :=
  includesStr m "insufficient funds" || includesStr m "insufficient balance" ||
    includesStr m "not enough" || includesStr m "exceeds balance"

/-- The wrong-network pattern group of `parseError`. -/
def matchesWrongNetwork (m : String) : Bool :=
  includesStr m "network" || includesStr m "chain" || includesStr m "chainid"

/-- The contract-revert pattern group of `parseError`. -/
def matchesContractRevert (m : String) : Bool :=
  includesStr m "revert" || includesStr m "execution reverted" ||
    includesStr m "contract error"

/-- The allowance pattern group of `parseError`. -/
def matchesAllowance (m : String) : Bool :=
  includesStr m "allowance" || includesStr m "approve"

/-- The network/RPC transport pattern group of `parseError`. -/
def matchesNetworkRPC (m : String) : Bool :=
  includesStr m "timeout" || includesStr m "network" ||
    includesStr m "fetch" || includesStr m "rpc"

/-- The revert sub-classification of `parseError`, by further substring
match on the lower-cased text. -/
def revertDetails (m : String) : String :=
  if includesStr m "sold out" || includesStr m "max supply" then
    "This NFT is sold out or has reached maximum supply."
  else if includesStr m "not started" || includesStr m "not active" then
    "Minting hasn\x27t started yet or has ended."
  else if includesStr m "max per wallet" || includesStr m "exceeds max" then
    "You\x27ve reached the maximum amount allowed per wallet."
  else if includesStr m "allowlist" || includesStr m "not eligible" then
    "You\x27re not eligible to mint this NFT. Check if it requires an allowlist."
  else "The contract rejected this transaction."

/-- C9: `parseError` classifies by case-insensitive substring match in the
fixed priority order user-rejected > insufficient-funds > wrong-network >
contract-revert (sub-classified by `revertDetails`) > allowance >
network/RPC > unknown; text matching several groups is classified by the
earliest, and (being a total function) every input yields a `ParsedError`. -/
theorem parseError_priority (error : String) (ctx : ErrorContext) :
    (matchesUserRejected (toLowerStr error) = true →
      (parseError error ctx).type = ErrorType.userRejected) ∧
    (matchesUserRejected (toLowerStr error) = false →
      matchesInsufficientFunds (toLowerStr error) = true →
      (parseError error ctx).type = ErrorType.insufficientFunds) ∧
    (matchesUserRejected (toLowerStr error) = false →
      matchesInsufficientFunds (toLowerStr error) = false →
      matchesWrongNetwork (toLowerStr error) = true →
      (parseError error ctx).type = ErrorType.wrongNetwork) ∧
    (matchesUserRejected (toLowerStr error) = false →
      matchesInsufficientFunds (toLowerStr error) = false →
      matchesWrongNetwork (toLowerStr error) = false →
      matchesContractRevert (toLowerStr error) = true →
      (parseError error ctx).type = ErrorType.contractError ∧
      (parseError error ctx).details =
        some (revertDetails (toLowerStr error))) ∧
    (matchesUserRejected (toLowerStr error) = false →
      matchesInsufficientFunds (toLowerStr error) = false →
      matchesWrongNetwork (toLowerStr error) = false →
      matchesContractRevert (toLowerStr error) = false →
      matchesAllowance (toLowerStr error) = true →
      (parseError error ctx).type = ErrorType.allowanceError) ∧
    (matchesUserRejected (toLowerStr error) = false →
      matchesInsufficientFunds (toLowerStr error) = false →
      matchesWrongNetwork (toLowerStr error) = false →
      matchesContractRevert (toLowerStr error) = false →
      matchesAllowance (toLowerStr error) = false →
      matchesNetworkRPC (toLowerStr error) = true →
      (parseError error ctx).type = ErrorType.networkError) ∧
    (matchesUserRejected (toLowerStr error) = false →
      matchesInsufficientFunds (toLowerStr error) = false →
      matchesWrongNetwork (toLowerStr error) = false →
      matchesContractRevert (toLowerStr error) = false →
      matchesAllowance (toLowerStr error) = false →
      matchesNetworkRPC (toLowerStr error) = false →
      (parseError error ctx).type = ErrorType.unknown ∧
      (parseError error ctx).details = some error) := by
  unfold parseError matchesUserRejected matchesInsufficientFunds
    matchesWrongNetwork matchesContractRevert matchesAllowance
    matchesNetworkRPC revertDetails
  refine ⟨?_, ?_, ?_, ?_, ?_, ?_, ?_⟩ <;> intros <;> simp_all

/-- Witness for C9: a message containing both the user-rejected and the
insufficient-funds patterns is classified as user-rejected (earliest
match), and a revert message mentioning a sell-out is classified as a
contract error. -/
theorem parseError_priority_witness :
    (parseError "User rejected: insufficient funds for gas"
      ErrorContext.mint).type = ErrorType.userRejected ∧
    (parseError "execution reverted: sold out" ErrorContext.mint).type =
      ErrorType.contractError := by
  constructor
  · exact (parseError_priority "User rejected: insufficient funds for gas"
      ErrorContext.mint).1 (by decide)
  · exact ((parseError_priority "execution reverted: sold out"
      ErrorContext.mint).2.2.2.1 (by decide) (by decide) (by decide)
      (by decide)).1
